import Mathlib

/-!
Verification of the media-relay core (`server-go/wrtc/tracks/peer.go`) of the
peer-calls SFU: a shallow embedding of the `Peer` type and its operations
(`AddTrack`, `RemoveTrack`, the ICE-state handler, the inbound-track handler)
and of the per-track relay (the PLI keyframe task and the packet copy task),
together with theorems settling the specification's claims about them.

Modelling conventions:
- Go pointer identity of a `*webrtc.Track` is modelled by a numeric `key`
  stored in the track; the `rtpSenderByTrack` Go map is an association list
  keyed by that key, with Go map-assignment semantics (at most one entry per
  key).
- The external transport (`PeerConnection`) is not part of the core; each
  operation that calls into it takes the transport call's outcome as an
  explicit argument, and operations that may or may not reach the transport
  report whether the call was made.
- The two relay goroutines are modelled as a small-step machine over an
  explicit interleaving of events: ticker firings of the PLI task and
  read/write iterations of the copy loop.  `defer ticker.Stop()` in the copy
  goroutine means the ticker is stopped exactly when the copy loop returns,
  so a single `stopped` flag covers both tasks.
-/

/-- A transport-level RTP sender, identified by Go object identity. -/
abbrev Sender := Nat

/-- A `webrtc.Track`: `key` models Go pointer identity; the remaining fields
mirror the accessors the core uses (`ID()`, `PayloadType()`, `SSRC()`, kind
and stream label as passed to `NewTrack`). -/
structure Track where
  key : Nat
  id : String
  payloadType : Nat
  ssrc : Nat
  kind : String
  label : String
deriving DecidableEq, Repr

/-- `webrtc.ICEConnectionState` as used by the core. -/
inductive ICEConnectionState where
  | new
  | checking
  | connected
  | completed
  | disconnected
  | failed
  | closed
deriving DecidableEq, Repr

/-- The `Peer` struct's data fields: client identifier, the ordered local
track registry, and the `rtpSenderByTrack` map (association list keyed by
track identity). The transport and the two callbacks are interaction
parameters of the individual operations, not state. -/
structure Peer where
  clientID : String
  localTracks : List Track
  rtpSenderByTrack : List (Nat × Sender)
deriving DecidableEq, Repr

/-- Go map read `m[k]`: value of the first entry with key `k`. -/
def mapLookup (m : List (Nat × Sender)) (k : Nat) : Option Sender :=
  (m.find? (fun e => e.1 == k)).map (fun e => e.2)

/-- Go map assignment `m[k] = v`: any existing entry for `k` is replaced, so
afterwards the map holds exactly one entry for `k`. -/
def mapInsert (m : List (Nat × Sender)) (k : Nat) (v : Sender) : List (Nat × Sender) :=
  (m.filter (fun e => !(e.1 == k))) ++ [(k, v)]

/-- Number of entries of the association list with key `k`. -/
def countKey (m : List (Nat × Sender)) (k : Nat) : Nat :=
  (m.filter (fun e => e.1 == k)).length

/-- `Peer.AddTrack`: asks the transport to add the track
(`transportResult`: `some sender` on success, `none` on failure); on success
records the track-to-sender association; on failure returns the annotated
negotiation error without touching the map.  Returns the new peer state and
the operation's error result (`none` = nil error). -/
def Peer.addTrack (p : Peer) (track : Track) (transportResult : Option Sender) :
    Peer × Option String :=
  match transportResult with
  | none =>
      (p, some ("Error adding track: " ++ track.id ++ " to peer clientID: " ++ p.clientID))
  | some rtpSender =>
      ({ p with rtpSenderByTrack := mapInsert p.rtpSenderByTrack track.key rtpSender }, none)

/-- Outcome of `Peer.RemoveTrack`: the peer state after the call, the error
result (`none` = nil error), and whether the transport's `RemoveTrack` was
invoked. -/
structure RemoveTrackResult where
  peer : Peer
  result : Option String
  transportCalled : Bool
deriving DecidableEq, Repr

/-- `Peer.RemoveTrack`: looks up the sender for the track; if absent, returns
the not-found error without calling the transport; if present, calls the
transport (`transportResult` is that call's outcome, `none` = success) and
returns its outcome.  Note the code never deletes the map entry. -/
def Peer.removeTrack (p : Peer) (track : Track) (transportResult : Option String) :
    RemoveTrackResult :=
  match mapLookup p.rtpSenderByTrack track.key with
  | none =>
      ⟨p, some ("Cannot find sender for track: " ++ track.id ++ ", clientID: " ++ p.clientID),
        false⟩
  | some _ => ⟨p, transportResult, true⟩

/-- `Peer.handleICEConnectionStateChange`: returns whether the handler
invokes `onClose(clientID)` for this state-change event. -/
def handleICEConnectionStateChange (connectionState : ICEConnectionState) : Bool :=
  connectionState == ICEConnectionState.closed ||
  connectionState == ICEConnectionState.disconnected ||
  connectionState == ICEConnectionState.failed

/-- Number of `onClose` invocations over a delivered sequence of ICE
state-change events (the handler holds no state between events). -/
def onCloseInvocations (events : List ICEConnectionState) : Nat :=
  (events.filter handleICEConnectionStateChange).length

/-- Synchronous part of `Peer.startCopyingTrack`: asks the transport for a new
local track with the remote track's payload type and SSRC, kind "video" and
label "pion".  `newTrackResult` is the transport `NewTrack` outcome: on
success the identity and id the transport assigns to the created track, on
failure the transport's error text.  Failure is wrapped in the annotated
error; success yields the local track handle. -/
def Peer.startCopyingTrack (p : Peer) (remoteTrack : Track)
    (newTrackResult : Except String (Nat × String)) : Except String Track :=
  match newTrackResult with
  | Except.error e =>
      Except.error ("startCopyingTrack: error creating new track, trackID: " ++ remoteTrack.id
        ++ ", clientID: " ++ p.clientID ++ ", error: " ++ e)
  | Except.ok (k, i) =>
      Except.ok
        { key := k, id := i, payloadType := remoteTrack.payloadType, ssrc := remoteTrack.ssrc,
          kind := "video", label := "pion" }

/-- Outcome of `Peer.handleTrack`: the peer state afterwards, the `onTrack`
callback invocation (its `(clientID, localTrack)` arguments, or `none` when
not invoked), and the error message logged on relay-startup failure. -/
structure HandleTrackResult where
  peer : Peer
  onTrackCall : Option (String × Track)
  loggedError : Option String
deriving DecidableEq, Repr

/-- `Peer.handleTrack`: starts the relay via `startCopyingTrack`; on failure
logs the error and returns with the peer unchanged; on success appends the
new local track to the registry and invokes `onTrack(clientID, localTrack)`. -/
def Peer.handleTrack (p : Peer) (remoteTrack : Track)
    (newTrackResult : Except String (Nat × String)) : HandleTrackResult :=
  match Peer.startCopyingTrack p remoteTrack newTrackResult with
  | Except.error err => ⟨p, none, some ("Error copying remote track: " ++ err)⟩
  | Except.ok localTrack =>
      ⟨{ p with localTracks := p.localTracks ++ [localTrack] },
        some (p.clientID, localTrack), none⟩

/-- `Peer.Tracks()`: snapshot of the local track registry. -/
def Peer.tracks (p : Peer) : List Track :=
  p.localTracks

/-- `time.Second` in nanoseconds. -/
def timeSecond : Nat := 1000000000

/-- `rtcpPLIInterval = time.Second * 3`. -/
def rtcpPLIInterval : Nat := timeSecond * 3

/-- Result of one `remoteTrack.Read`: either a packet of at most 1400 bytes
(the bytes placed in `rtpBuf[:i]`) or an error. -/
inductive ReadResult where
  | ok (data : List Nat)
  | err
deriving DecidableEq, Repr

/-- Result of one `localTrack.Write`: success, `io.ErrClosedPipe` (no
subscriber on the output path), or any other error. -/
inductive WriteResult where
  | ok
  | closedPipe
  | err
deriving DecidableEq, Repr

/-- An RTCP packet produced by the core.  The core only ever constructs
`rtcp.PictureLossIndication` values. -/
inductive RTCPPacket where
  | pictureLossIndication (mediaSSRC : Nat)
deriving DecidableEq, Repr

/-- One scheduling event of a running relay: a firing of the PLI ticker
(with the outcome of the `WriteRTCP` call it performs) or one iteration of
the copy loop (the read outcome and, when the read succeeds, the write
outcome). -/
inductive RelayEvent where
  | tick (writeOk : Bool)
  | packet (r : ReadResult) (w : WriteResult)
deriving DecidableEq, Repr

/-- Observable state of one relay: whether the copy goroutine has returned
(which, through `defer ticker.Stop()`, also stops the PLI ticker), the
sequence of `WriteRTCP` calls made (each a packet batch), and the sequence of
`localTrack.Write` calls made (each the bytes written). -/
structure RelayState where
  stopped : Bool
  rtcpWrites : List (List RTCPPacket)
  localWrites : List (List Nat)
deriving DecidableEq, Repr

/-- Relay state right after `startCopyingTrack` returns. -/
def relayInit : RelayState :=
  ⟨false, [], []⟩

/-- One step of the relay machine for the remote track's SSRC `ssrc`.
A stopped relay ignores all events.  A ticker firing writes one PLI packet
addressed to `ssrc`; a `WriteRTCP` failure is logged only and changes
nothing.  A copy iteration: a read error returns from the copy goroutine
(stopping the ticker via the deferred `Stop`); a successful read writes the
bytes to the local track, after which `io.ErrClosedPipe` is tolerated and
any other write error returns as a read error does. -/
def relayStep (ssrc : Nat) (s : RelayState) (e : RelayEvent) : RelayState :=
  if s.stopped then s
  else
    match e with
    | RelayEvent.tick _ =>
        { s with rtcpWrites := s.rtcpWrites ++ [[RTCPPacket.pictureLossIndication ssrc]] }
    | RelayEvent.packet ReadResult.err _ => { s with stopped := true }
    | RelayEvent.packet (ReadResult.ok data) w =>
        match w with
        | WriteResult.err =>
            { s with localWrites := s.localWrites ++ [data], stopped := true }
        | _ => { s with localWrites := s.localWrites ++ [data] }

/-- Run the relay machine over a sequence of events. -/
def relayRun (ssrc : Nat) (s : RelayState) : List RelayEvent → RelayState
  | [] => s
  | e :: es => relayRun ssrc (relayStep ssrc s e) es

/-- The event trace in which `packets` are read from the remote track, every
read and every local write succeed, and no ticker firing is interleaved. -/
def okTrace (packets : List (List Nat)) : List RelayEvent :=
  packets.map (fun data => RelayEvent.packet (ReadResult.ok data) WriteResult.ok)

/-! ## Helper lemmas -/

/-- Go map assignment makes the assigned key look up the assigned value. -/
theorem mapLookup_mapInsert (m : List (Nat × Sender)) (k : Nat) (v : Sender) :
    mapLookup (mapInsert m k v) k = some v := by
  induction m with
  | nil => simp [mapLookup, mapInsert, List.find?]
  | cons a as ih =>
    by_cases h : a.1 = k
    · simp [mapLookup, mapInsert, List.filter_cons, h]
    · simp only [mapLookup, mapInsert, List.filter_cons] at ih ⊢
      simp [h, List.find?, ih]

/-- Go map assignment leaves exactly one entry for the assigned key. -/
theorem countKey_mapInsert (m : List (Nat × Sender)) (k : Nat) (v : Sender) :
    countKey (mapInsert m k v) k = 1 := by
  induction m with
  | nil => simp [countKey, mapInsert]
  | cons a as ih =>
    by_cases h : a.1 = k
    · simp [countKey, mapInsert, List.filter_cons, h]
    · simp [countKey, mapInsert, List.filter_cons, h]

/-- A stopped relay ignores every event. -/
theorem relayStep_stopped (ssrc : Nat) (s : RelayState) (e : RelayEvent)
    (h : s.stopped = true) : relayStep ssrc s e = s := by
  simp [relayStep, h]

/-- A stopped relay stays in its state over any event sequence. -/
theorem relayRun_stopped (ssrc : Nat) (s : RelayState) (events : List RelayEvent)
    (h : s.stopped = true) : relayRun ssrc s events = s := by
  induction events with
  | nil => rfl
  | cons e es ih => simp [relayRun, relayStep_stopped ssrc s e h, ih]

/-- Over an all-successful copy trace, the local writes are exactly the
packets read, appended in order, and the relay keeps running. -/
theorem relayRun_okTrace (ssrc : Nat) (packets : List (List Nat)) :
    ∀ s : RelayState, s.stopped = false →
      relayRun ssrc s (okTrace packets) = { s with localWrites := s.localWrites ++ packets } := by
  induction packets with
  | nil => intro s h; cases s; simp [okTrace, relayRun]
  | cons d ds ih =>
    intro s h
    have hstep : relayStep ssrc s (RelayEvent.packet (ReadResult.ok d) WriteResult.ok) =
        { s with localWrites := s.localWrites ++ [d] } := by
      simp [relayStep, h]
    simp only [okTrace, List.map_cons, relayRun] at ih ⊢
    rw [hstep, ih { s with localWrites := s.localWrites ++ [d] } h]
    simp

/-- Each relay step either leaves the RTCP write log unchanged or appends one
batch holding a single PLI packet for the relayed SSRC. -/
theorem relayStep_rtcp (ssrc : Nat) (s : RelayState) (e : RelayEvent) :
    (relayStep ssrc s e).rtcpWrites = s.rtcpWrites ∨
    (relayStep ssrc s e).rtcpWrites =
      s.rtcpWrites ++ [[RTCPPacket.pictureLossIndication ssrc]] := by
  by_cases h : s.stopped = true
  · left; rw [relayStep_stopped ssrc s e h]
  · cases e with
    | tick b => right; simp [relayStep, h]
    | packet r w =>
      cases r with
      | err => left; simp [relayStep, h]
      | ok d => cases w <;> simp [relayStep, h]

/-- Every RTCP batch a relay ever writes is a single PLI for its SSRC. -/
theorem relayRun_rtcp_pli (ssrc : Nat) (events : List RelayEvent) :
    ∀ s : RelayState,
      (∀ w ∈ s.rtcpWrites, w = [RTCPPacket.pictureLossIndication ssrc]) →
      ∀ w ∈ (relayRun ssrc s events).rtcpWrites,
        w = [RTCPPacket.pictureLossIndication ssrc] := by
  induction events with
  | nil => intro s h; exact h
  | cons e es ih =>
    intro s h
    apply ih
    rcases relayStep_rtcp ssrc s e with heq | heq <;> rw [heq]
    · exact h
    · intro w hw
      rcases List.mem_append.mp hw with h1 | h2
      · exact h w h1
      · simpa using h2

/-! ## Claims -/

/-- Claim C1 (corrected), counterexample to the claim as stated: with track
`t0` (identity 0) registered with sender 5 and a successful transport call,
`RemoveTrack` returns success, yet the sender map still contains the entry
for the track — the code never removes the association. -/
theorem C1_counterexample :
    (Peer.removeTrack ⟨"alice", [], [(0, 5)]⟩ ⟨0, "t0", 96, 1111, "video", "pion"⟩ none).result
      = none ∧
    mapLookup (Peer.removeTrack ⟨"alice", [], [(0, 5)]⟩ ⟨0, "t0", 96, 1111, "video", "pion"⟩
      none).peer.rtpSenderByTrack 0 = some 5 :=
  ⟨rfl, rfl⟩

/-- Claim C1 (corrected), amended: for a track registered in the sender map,
`RemoveTrack` calls the transport and propagates the transport call's outcome
as its result, but the peer state — in particular the (track → sender)
association — is left unchanged whether the transport call succeeds or
fails. -/
theorem C1_removeTrack_registered (p : Peer) (track : Track) (sender : Sender)
    (transportResult : Option String)
    (h : mapLookup p.rtpSenderByTrack track.key = some sender) :
    Peer.removeTrack p track transportResult = ⟨p, transportResult, true⟩ := by
  simp [Peer.removeTrack, h]

/-- Witness for C1: the amended theorem applied to a concrete registered
track, once with a successful and once with a failing transport call. -/
theorem C1_removeTrack_registered_witness :
    mapLookup ([(0, 5)] : List (Nat × Sender)) 0 = some 5 ∧
    Peer.removeTrack ⟨"alice", [], [(0, 5)]⟩ ⟨0, "t0", 96, 1111, "video", "pion"⟩
      (some "transport failure") =
      ⟨⟨"alice", [], [(0, 5)]⟩, some "transport failure", true⟩ :=
  ⟨rfl,
    C1_removeTrack_registered ⟨"alice", [], [(0, 5)]⟩ ⟨0, "t0", 96, 1111, "video", "pion"⟩ 5
      (some "transport failure") rfl⟩

/-- Claim C2 (code bug): the handler invokes `onClose` on every
terminal-class ICE event, so the terminal sequence disconnected-then-failed
invokes it twice, not exactly once; for the non-terminal states it is never
invoked. -/
theorem C2_onClose_invoked_per_terminal_event :
    onCloseInvocations [ICEConnectionState.disconnected, ICEConnectionState.failed] = 2 ∧
    onCloseInvocations [ICEConnectionState.new, ICEConnectionState.checking,
      ICEConnectionState.connected, ICEConnectionState.completed] = 0 := by
  decide

/-- Claim C3 (confirmed): for every sequence of packets successfully read
from the remote track, with every local write succeeding (no "no subscriber"
condition), the copy task writes exactly those packets to the local track,
byte-identical and in order, and the relay is still running afterwards. -/
theorem C3_copy_law (ssrc : Nat) (packets : List (List Nat)) :
    (relayRun ssrc relayInit (okTrace packets)).localWrites = packets ∧
    (relayRun ssrc relayInit (okTrace packets)).stopped = false := by
  rw [relayRun_okTrace ssrc packets relayInit rfl]
  exact ⟨rfl, rfl⟩

/-- Claim C4 (confirmed): in a running relay, a local write failing with
`io.ErrClosedPipe` is tolerated — the write is recorded and the relay keeps
running; a read error, or any other write error, stops the relay; and once
stopped (the copy goroutine returned, so the deferred `ticker.Stop()` ran)
no further RTCP (PLI) writes and no further local writes occur on any
subsequent events. -/
theorem C4_copy_error_handling (ssrc : Nat) (s : RelayState) (h : s.stopped = false) :
    (∀ data, relayStep ssrc s (RelayEvent.packet (ReadResult.ok data) WriteResult.closedPipe) =
      { s with localWrites := s.localWrites ++ [data] }) ∧
    (∀ w, (relayStep ssrc s (RelayEvent.packet ReadResult.err w)).stopped = true) ∧
    (∀ data,
      (relayStep ssrc s (RelayEvent.packet (ReadResult.ok data) WriteResult.err)).stopped
        = true) ∧
    (∀ s' : RelayState, s'.stopped = true → ∀ events,
      (relayRun ssrc s' events).rtcpWrites = s'.rtcpWrites ∧
      (relayRun ssrc s' events).localWrites = s'.localWrites) := by
  refine ⟨?_, ?_, ?_, ?_⟩
  · intro data; simp [relayStep, h]
  · intro w; simp [relayStep, h]
  · intro data; simp [relayStep, h]
  · intro s' h' events
    rw [relayRun_stopped ssrc s' events h']
    exact ⟨rfl, rfl⟩

/-- Witness for C4: the error-handling theorem applied to the freshly started
relay state, checking that a read error stops the relay. -/
theorem C4_copy_error_handling_witness :
    relayInit.stopped = false ∧
    (relayStep 1111 relayInit (RelayEvent.packet ReadResult.err WriteResult.ok)).stopped
      = true :=
  ⟨rfl, (C4_copy_error_handling 1111 relayInit rfl).2.1 WriteResult.ok⟩

/-- Claim C5 (confirmed): for a track absent from the sender map,
`RemoveTrack` returns the not-found error, does not call the transport, and
leaves the peer — in particular the sender map and its size — unchanged. -/
theorem C5_removeTrack_notFound (p : Peer) (track : Track) (transportResult : Option String)
    (h : mapLookup p.rtpSenderByTrack track.key = none) :
    Peer.removeTrack p track transportResult =
      ⟨p, some ("Cannot find sender for track: " ++ track.id ++ ", clientID: " ++ p.clientID),
        false⟩ := by
  simp [Peer.removeTrack, h]

/-- Witness for C5: the not-found theorem applied to a peer with an empty
sender map. -/
theorem C5_removeTrack_notFound_witness :
    mapLookup ([] : List (Nat × Sender)) 0 = none ∧
    Peer.removeTrack ⟨"alice", [], []⟩ ⟨0, "t0", 96, 1111, "video", "pion"⟩ none =
      ⟨⟨"alice", [], []⟩, some "Cannot find sender for track: t0, clientID: alice", false⟩ :=
  ⟨rfl,
    C5_removeTrack_notFound ⟨"alice", [], []⟩ ⟨0, "t0", 96, 1111, "video", "pion"⟩ none rfl⟩

/-- Claim C6 (confirmed): when the transport's `AddTrack` succeeds,
`Peer.AddTrack` returns nil and the sender map afterwards holds exactly one
entry for the track, mapping it to the returned sender; when the transport
fails, it returns the negotiation error annotated with the track id and the
client id (a single transport interaction, no retry). -/
theorem C6_addTrack_records_sender (p : Peer) (track : Track) (sender : Sender) :
    (Peer.addTrack p track (some sender)).2 = none ∧
    mapLookup (Peer.addTrack p track (some sender)).1.rtpSenderByTrack track.key
      = some sender ∧
    countKey (Peer.addTrack p track (some sender)).1.rtpSenderByTrack track.key = 1 ∧
    (Peer.addTrack p track none).2 =
      some ("Error adding track: " ++ track.id ++ " to peer clientID: " ++ p.clientID) := by
  refine ⟨rfl, ?_, ?_, rfl⟩
  · simpa [Peer.addTrack] using
      mapLookup_mapInsert p.rtpSenderByTrack track.key sender
  · simpa [Peer.addTrack] using
      countKey_mapInsert p.rtpSenderByTrack track.key sender

/-- Claim C7 (confirmed): handling an inbound remote track whose local-track
creation succeeds appends to the registry exactly one local track carrying
the remote track's payload type and SSRC, kind "video" and stream label
"pion", and hands that same track to `onTrack`; in the concrete scenario a
remote track with SSRC 1111 and payload type 96 published to a fresh peer
leaves `Tracks()` holding exactly one local track with SSRC 1111 and payload
type 96. -/
theorem C7_local_track_mirrors_remote (p : Peer) (remoteTrack : Track) (k : Nat) (i : String) :
    Peer.handleTrack p remoteTrack (Except.ok (k, i)) =
      ⟨{ p with localTracks := p.localTracks ++
          [⟨k, i, remoteTrack.payloadType, remoteTrack.ssrc, "video", "pion"⟩] },
        some (p.clientID, ⟨k, i, remoteTrack.payloadType, remoteTrack.ssrc, "video", "pion"⟩),
        none⟩ ∧
    (Peer.handleTrack ⟨"alice", [], []⟩ ⟨0, "r0", 96, 1111, "video", "pion"⟩
        (Except.ok (k, i))).peer.tracks =
      [⟨k, i, 96, 1111, "video", "pion"⟩] :=
  ⟨rfl, rfl⟩

/-- Claim C8 (confirmed): when the transport's `NewTrack` fails, relay
startup is aborted — the annotated error is logged, the peer (and hence its
local-track registry) is unchanged, and `onTrack` is not invoked. -/
theorem C8_relay_startup_failure (p : Peer) (remoteTrack : Track) (e : String) :
    Peer.handleTrack p remoteTrack (Except.error e) =
      ⟨p, none,
        some ("Error copying remote track: " ++
          ("startCopyingTrack: error creating new track, trackID: " ++ remoteTrack.id
            ++ ", clientID: " ++ p.clientID ++ ", error: " ++ e))⟩ :=
  rfl

/-- Claim C9 (confirmed): the PLI task's interval is the fixed 3 seconds;
while the relay runs, each ticker firing appends exactly one `WriteRTCP`
call carrying a single PLI packet whose media SSRC is the remote track's
SSRC, with the same resulting state whether that write succeeds or fails
(a write failure does not stop the task); and every RTCP batch a relay ever
produces is a single PLI for its SSRC — no other RTCP packet is produced. -/
theorem C9_pli_task (ssrc : Nat) (s : RelayState) (h : s.stopped = false) :
    rtcpPLIInterval = 3 * timeSecond ∧
    (∀ writeOk, relayStep ssrc s (RelayEvent.tick writeOk) =
      { s with rtcpWrites := s.rtcpWrites ++ [[RTCPPacket.pictureLossIndication ssrc]] }) ∧
    (∀ events, ∀ w ∈ (relayRun ssrc relayInit events).rtcpWrites,
      w = [RTCPPacket.pictureLossIndication ssrc]) := by
  refine ⟨by norm_num [rtcpPLIInterval, timeSecond], ?_, ?_⟩
  · intro writeOk; simp [relayStep, h]
  · intro events
    exact relayRun_rtcp_pli ssrc events relayInit (by simp [relayInit])

/-- Witness for C9: the PLI theorem applied to the freshly started relay,
with a failing RTCP write: one PLI for SSRC 1111 is recorded and the relay
is still running. -/
theorem C9_pli_task_witness :
    relayInit.stopped = false ∧
    relayStep 1111 relayInit (RelayEvent.tick false) =
      ⟨false, [[RTCPPacket.pictureLossIndication 1111]], []⟩ :=
  ⟨rfl, (C9_pli_task 1111 relayInit rfl).2.1 false⟩

/-- Claim C10 (confirmed): whenever `AddTrack` returns an error, the peer —
in particular the sender map — is exactly as it was before the call: the
failed transport attempt records nothing and disturbs no existing entry. -/
theorem C10_addTrack_error_atomicity (p : Peer) (track : Track)
    (transportResult : Option Sender)
    (h : (Peer.addTrack p track transportResult).2 ≠ none) :
    (Peer.addTrack p track transportResult).1 = p := by
  cases transportResult with
  | none => rfl
  | some sender => exact absurd rfl h

/-- Witness for C10: the atomicity theorem applied to a concrete peer whose
transport rejects the track. -/
theorem C10_addTrack_error_atomicity_witness :
    (Peer.addTrack ⟨"alice", [], [(3, 7)]⟩ ⟨0, "t0", 96, 1111, "video", "pion"⟩ none).2
      ≠ none ∧
    (Peer.addTrack ⟨"alice", [], [(3, 7)]⟩ ⟨0, "t0", 96, 1111, "video", "pion"⟩ none).1 =
      ⟨"alice", [], [(3, 7)]⟩ :=
  ⟨by simp [Peer.addTrack],
    C10_addTrack_error_atomicity ⟨"alice", [], [(3, 7)]⟩ ⟨0, "t0", 96, 1111, "video", "pion"⟩
      none (by simp [Peer.addTrack])⟩
